import Mathlib

/-!
Shallow embedding of the mpubg-client-js core pipeline and proofs about it.

The embedding covers:
* `MatchStateManager` (src/shared/match-state-manager.ts): match-id tracking and
  the refresh decision;
* `MessageDispatcher` (src/shared/message-dispatcher.ts): the paced, deduplicating
  delivery queue;
* `WebSocketClient` (the websocket module): transport error / disconnect /
  reconnect handling, modelled as a pure state transition emitting callback events;
* `LiveTeamPanel` (live_team_panel.ts) and `updateTotalLeaderboardOnUIThread`
  (livestanding.ts): squad status, elimination latch, rank-change events and the
  per-pass elimination batch.

JavaScript numbers holding timestamps, ranks and scores are modelled as `Int`
(all of the code paths modelled use them integrally); byte arrays
(`Uint8Array`) as `List Nat`; nullable fields as `Option`; DOM side effects and
logging are either dropped or reflected as explicit fields (opacity, CSS class)
or emitted event lists.
-/

namespace Mpubg

/-! ## MatchStateManager (src/shared/match-state-manager.ts) -/

/-- The `MatchState` record held by `MatchStateManager`: a nullable match id
(`Uint8Array | null`, modelled as `Option (List Nat)`), the tournament id and
the last update timestamp. -/
structure MatchState where
  matchId : Option (List Nat)
  tournamentId : String
  lastUpdateTime : Int
deriving DecidableEq, Repr

/-- The initial `currentState` of a freshly constructed `MatchStateManager`. -/
def initialMatchState : MatchState :=
  { matchId := none, tournamentId := "", lastUpdateTime := 0 }

/-- `areMatchIdsEqual`: length check followed by an index-by-index byte
comparison, exactly as the source loop. -/
def areMatchIdsEqual (id1 id2 : List Nat) : Bool :=
  if id1.length != id2.length then false
  else (List.range id1.length).all fun i => id1.getD i 0 == id2.getD i 0

/-- `shouldRefresh`: `false` when no match id has been observed yet, otherwise
`true` iff the stored id and the new id are not byte-for-byte equal. The
function takes only the new match id; the `reconnecting` flag of the delivering
message is not an input. -/
def shouldRefresh (st : MatchState) (newMatchId : List Nat) : Bool :=
  match st.matchId with
  | none => false
  | some old => !(areMatchIdsEqual old newMatchId)

/-- `updateState`: stores a copy of the id, the tournament id and the current
time (`Date.now()` is passed in as `now`). -/
def updateState (st : MatchState) (matchId : List Nat) (tournamentId : String)
    (now : Int) : MatchState :=
  let _ := st
  { matchId := some matchId, tournamentId := tournamentId, lastUpdateTime := now }

/-- `clear`: resets to the never-observed state. -/
def clearState (st : MatchState) : MatchState :=
  let _ := st
  initialMatchState

/-- One call on a `MatchStateManager` instance. A `query` call is a
`shouldRefresh` invocation; it carries the `reconnecting` flag of the message
being processed, which the manager never reads. -/
inductive MCall where
  | update (matchId : List Nat) (tournamentId : String) (now : Int)
  | clear
  | query (newMatchId : List Nat) (reconnecting : Bool)
deriving DecidableEq, Repr

/-- State transition of one call: `shouldRefresh` is read-only. -/
def stepCall (st : MatchState) : MCall → MatchState
  | .update matchId tournamentId now => updateState st matchId tournamentId now
  | .clear => clearState st
  | .query _ _ => st

/-- State of the manager after a sequence of calls on a fresh instance. -/
def runTrace (tr : List MCall) : MatchState :=
  tr.foldl stepCall initialMatchState

/-- The id most recently stored by `updateState` (and not erased by a later
`clear`), starting from a stored value `o`. -/
def lastStoredFrom (o : Option (List Nat)) : List MCall → Option (List Nat)
  | [] => o
  | .update matchId _ _ :: rest => lastStoredFrom (some matchId) rest
  | .clear :: rest => lastStoredFrom none rest
  | .query _ _ :: rest => lastStoredFrom o rest

/-- The id most recently stored by `updateState` over a whole trace. -/
def lastStored (tr : List MCall) : Option (List Nat) :=
  lastStoredFrom none tr

theorem areMatchIdsEqual_iff (a b : List Nat) :
    areMatchIdsEqual a b = true ↔ a = b := by
  constructor
  · intro h
    by_cases hlen : a.length = b.length
    · have hall : ∀ i ∈ List.range a.length, (a.getD i 0 == b.getD i 0) = true := by
        have hcond : (a.length != b.length) = false := by simp [hlen]
        unfold areMatchIdsEqual at h
        rw [hcond] at h
        simpa using List.all_eq_true.mp h
      apply List.ext_getElem hlen
      intro i h1 h2
      have hm : i ∈ List.range a.length := List.mem_range.mpr h1
      have hbeq : a.getD i 0 = b.getD i 0 := by
        have := hall i hm
        exact beq_iff_eq.mp this
      rwa [List.getD_eq_getElem a 0 h1, List.getD_eq_getElem b 0 h2] at hbeq
    · exfalso
      have hcond : (a.length != b.length) = true := by
        simp [hlen]
      unfold areMatchIdsEqual at h
      rw [hcond] at h
      exact Bool.false_ne_true h
  · rintro rfl
    unfold areMatchIdsEqual
    simp

theorem matchId_runTrace_aux (tr : List MCall) :
    ∀ st : MatchState, (tr.foldl stepCall st).matchId = lastStoredFrom st.matchId tr := by
  induction tr with
  | nil => intro st; rfl
  | cons c rest ih =>
    intro st
    cases c with
    | update matchId tournamentId now =>
      simpa [List.foldl, stepCall, updateState, lastStoredFrom] using
        ih (updateState st matchId tournamentId now)
    | clear =>
      simpa [List.foldl, stepCall, clearState, initialMatchState, lastStoredFrom] using
        ih (clearState st)
    | query newMatchId reconnecting =>
      simpa [List.foldl, stepCall, lastStoredFrom] using ih st

theorem matchId_runTrace (tr : List MCall) :
    (runTrace tr).matchId = lastStored tr := by
  simpa [runTrace, lastStored, initialMatchState] using
    matchId_runTrace_aux tr initialMatchState

/-- C1. For every sequence of calls on a single `MatchStateManager`:
`shouldRefresh` returns `false` while no match id has been stored by
`updateState` (in particular on the very first call), and afterwards returns
`true` iff its argument differs byte-for-byte (in length or in some byte) from
the most recently stored id. Query calls — whatever the `reconnecting` flag of
the delivering message — leave the state unchanged, so the flag plays no role
in the decision. -/
theorem c1_shouldRefresh_trace (tr : List MCall) (newId : List Nat) :
    (lastStored tr = none → shouldRefresh (runTrace tr) newId = false) ∧
    (∀ old, lastStored tr = some old →
      (shouldRefresh (runTrace tr) newId = true ↔ old ≠ newId)) ∧
    (∀ id b, runTrace (tr ++ [MCall.query id b]) = runTrace tr) := by
  refine ⟨?_, ?_, ?_⟩
  · intro hnone
    simp [shouldRefresh, matchId_runTrace tr, hnone]
  · intro old hsome
    simp only [shouldRefresh, matchId_runTrace tr, hsome]
    constructor
    · intro h heq
      rw [heq] at h
      have : areMatchIdsEqual newId newId = true := (areMatchIdsEqual_iff newId newId).mpr rfl
      rw [this] at h
      exact Bool.false_ne_true h
    · intro hne
      have : areMatchIdsEqual old newId = false := by
        cases hcase : areMatchIdsEqual old newId with
        | false => rfl
        | true => exact absurd ((areMatchIdsEqual_iff old newId).mp hcase) hne
      rw [this]
      rfl
  · intro id b
    simp [runTrace, List.foldl_append, stepCall]

/-- Witness for C1 at a concrete trace: after storing id `[1, 2]`, a query with
the different id `[1, 3]` refreshes and a query with `[1, 2]` does not. -/
theorem c1_shouldRefresh_trace_witness :
    shouldRefresh (runTrace [MCall.update [1, 2] "t" 5]) [1, 3] = true ∧
    shouldRefresh (runTrace [MCall.update [1, 2] "t" 5]) [1, 2] ≠ true := by
  constructor
  · exact ((c1_shouldRefresh_trace [MCall.update [1, 2] "t" 5] [1, 3]).2.1
      [1, 2] (by decide)).mpr (by decide)
  · intro h
    have := ((c1_shouldRefresh_trace [MCall.update [1, 2] "t" 5] [1, 2]).2.1
      [1, 2] (by decide)).mp h
    exact this rfl

/-! ## MessageDispatcher (src/shared/message-dispatcher.ts)

The queue entry type `EventQueueData`, the dispatcher state and the timer
callback `onTimerExpired`. Decoding (`dataFormat.parseFromJson`) is an external
collaborator and is passed in as a function `decode : String → Option M`
(`none` models a thrown parse error, caught by the `try`/`catch`). A delivery
is the invocation of the `onUpdate` callback, modelled as the second component
`Option (M × Bool)` of the result (message and `reconnecting` flag); the two
`Date.now()` reads inside one timer callback are collapsed to the single tick
time `now`. -/

/-- A queued message: the `reconnecting` flag and the opaque payload string. -/
structure EventQueueData where
  reconnecting : Bool
  data : String
deriving DecidableEq, Repr

/-- Pacing interval: 1500 ms between processed deliveries. -/
def intervalMs : Int := 1500

/-- Timer granularity: the timer callback runs every 100 ms. -/
def checkIntervalMs : Int := 100

/-- Dispatcher state: the FIFO queue, whether the interval timer is set
(`intervalTimer !== null`), and `latestProcessTime`. -/
structure DispatcherState where
  eventQueue : List EventQueueData
  intervalTimer : Bool
  latestProcessTime : Int
deriving DecidableEq, Repr

/-- `onTimerExpired`: return early if fewer than `intervalMs` ms elapsed since
`latestProcessTime` or the queue is empty; otherwise shift the head and, if the
queue still has an entry, shift that second entry and let it replace the head
as the one delivered. The selected payload is decoded; on success the
`onUpdate` callback fires, on failure the error is caught; in both cases
`latestProcessTime` is set to the current time. -/
def onTimerExpired {M : Type} (decode : String → Option M) (now : Int)
    (s : DispatcherState) : DispatcherState × Option (M × Bool) :=
  if now - s.latestProcessTime < intervalMs then (s, none)
  else
    match s.eventQueue with
    | [] => (s, none)
    | e1 :: rest =>
      let sel : EventQueueData × List EventQueueData :=
        match rest with
        | [] => (e1, [])
        | e2 :: rest2 => (e2, rest2)
      let s2 : DispatcherState :=
        { s with eventQueue := sel.2, latestProcessTime := now }
      match decode sel.1.data with
      | some m => (s2, some (m, sel.1.reconnecting))
      | none => (s2, none)

/-- A tick of the 100 ms interval timer: `onTimerExpired` runs only while the
timer is set (after `stop()` clears it, no callback fires). -/
def tick {M : Type} (decode : String → Option M) (now : Int)
    (s : DispatcherState) : DispatcherState × Option (M × Bool) :=
  if s.intervalTimer then onTimerExpired decode now s else (s, none)

/-- `enqueue`: append to the FIFO queue. -/
def enqueue (s : DispatcherState) (e : EventQueueData) : DispatcherState :=
  { s with eventQueue := s.eventQueue ++ [e] }

/-- `start`: no-op when already started, otherwise set `latestProcessTime` to
the current time and install the interval timer. -/
def startDispatcher (now : Int) (s : DispatcherState) : DispatcherState :=
  if s.intervalTimer then s
  else { s with intervalTimer := true, latestProcessTime := now }

/-- `stop`: clear the interval timer (and nothing else). -/
def stopDispatcher (s : DispatcherState) : DispatcherState :=
  { s with intervalTimer := false }

/-- `clear`: empty the queue. -/
def clearQueue (s : DispatcherState) : DispatcherState :=
  { s with eventQueue := [] }

theorem onTimerExpired_deliver_eligible {M : Type} (decode : String → Option M)
    (now : Int) (s : DispatcherState) (d : M × Bool)
    (h : (onTimerExpired decode now s).2 = some d) :
    intervalMs ≤ now - s.latestProcessTime ∧
      (onTimerExpired decode now s).1.latestProcessTime = now := by
  by_cases hlt : now - s.latestProcessTime < intervalMs
  · rw [onTimerExpired, if_pos hlt] at h
    exact absurd h (by simp)
  · cases hq : s.eventQueue with
    | nil =>
      rw [onTimerExpired, if_neg hlt, hq] at h
      exact absurd h (by simp)
    | cons e1 rest =>
      refine ⟨le_of_not_lt hlt, ?_⟩
      rw [onTimerExpired, if_neg hlt, hq]
      cases rest with
      | nil => cases hdec : decode e1.data <;> simp [hdec]
      | cons e2 rest2 => cases hdec : decode e2.data <;> simp [hdec]

/-- C2. At a timer tick at which fewer than 1500 ms have elapsed since the last
processed delivery, or at which the queue is empty, nothing is delivered and
the state is unchanged. At an eligible tick, with the decode step succeeding on
the selected payload, exactly one message is delivered: the head when the queue
holds exactly one entry, otherwise the second-oldest entry, with the head
silently dropped. Whenever a delivery happens, at least 1500 ms have elapsed
since `latestProcessTime` and the new `latestProcessTime` is the tick time, so
deliveries are at least 1500 ms apart regardless of burst size. -/
theorem c2_dispatcher_tick (M : Type) (decode : String → Option M) (now : Int)
    (s : DispatcherState) :
    (now - s.latestProcessTime < intervalMs →
      onTimerExpired decode now s = (s, none)) ∧
    (s.eventQueue = [] → onTimerExpired decode now s = (s, none)) ∧
    (∀ e m, intervalMs ≤ now - s.latestProcessTime → s.eventQueue = [e] →
      decode e.data = some m →
      onTimerExpired decode now s =
        ({ s with eventQueue := [], latestProcessTime := now },
          some (m, e.reconnecting))) ∧
    (∀ e1 e2 rest m, intervalMs ≤ now - s.latestProcessTime →
      s.eventQueue = e1 :: e2 :: rest → decode e2.data = some m →
      onTimerExpired decode now s =
        ({ s with eventQueue := rest, latestProcessTime := now },
          some (m, e2.reconnecting))) ∧
    (∀ d, (onTimerExpired decode now s).2 = some d →
      intervalMs ≤ now - s.latestProcessTime ∧
        (onTimerExpired decode now s).1.latestProcessTime = now) := by
  refine ⟨?_, ?_, ?_, ?_, ?_⟩
  · intro hlt
    rw [onTimerExpired, if_pos hlt]
  · intro hq
    rw [onTimerExpired]
    by_cases hlt : now - s.latestProcessTime < intervalMs
    · rw [if_pos hlt]
    · rw [if_neg hlt, hq]
  · intro e m hle hq hdec
    rw [onTimerExpired, if_neg (not_lt.mpr hle), hq]
    simp [hdec]
  · intro e1 e2 rest m hle hq hdec
    rw [onTimerExpired, if_neg (not_lt.mpr hle), hq]
    simp [hdec]
  · intro d h
    exact onTimerExpired_deliver_eligible decode now s d h

/-- Witness for C2 at a concrete input: with two queued messages and an
eligible tick, the second-oldest is delivered and the head is dropped. -/
theorem c2_dispatcher_tick_witness :
    onTimerExpired (fun p => some p) 1500
        { eventQueue := [{ reconnecting := false, data := "a" },
                         { reconnecting := true, data := "b" }],
          intervalTimer := true, latestProcessTime := 0 } =
      ({ eventQueue := [], intervalTimer := true, latestProcessTime := 1500 },
        some ("b", true)) := by
  exact (c2_dispatcher_tick String (fun p => some p) 1500
      { eventQueue := [{ reconnecting := false, data := "a" },
                       { reconnecting := true, data := "b" }],
        intervalTimer := true, latestProcessTime := 0 }).2.2.2.1
    { reconnecting := false, data := "a" } { reconnecting := true, data := "b" }
    [] "b" (by decide) rfl rfl

/-- C9. When decoding the dequeued payload fails at an eligible tick, the
dispatcher still advances `latestProcessTime` to the tick time, the selected
message (and, when the queue held two or more entries, the deduplicated older
head as well) is permanently removed, no delivery callback is invoked, and no
later tick can deliver anything earlier than 1500 ms after the failed
attempt. -/
theorem c9_decode_failure (M : Type) (decode : String → Option M) (now : Int)
    (s : DispatcherState) :
    (∀ e, intervalMs ≤ now - s.latestProcessTime → s.eventQueue = [e] →
      decode e.data = none →
      onTimerExpired decode now s =
        ({ s with eventQueue := [], latestProcessTime := now }, none)) ∧
    (∀ e1 e2 rest, intervalMs ≤ now - s.latestProcessTime →
      s.eventQueue = e1 :: e2 :: rest → decode e2.data = none →
      onTimerExpired decode now s =
        ({ s with eventQueue := rest, latestProcessTime := now }, none)) ∧
    (∀ e rest later d, intervalMs ≤ now - s.latestProcessTime →
      s.eventQueue = e :: rest →
      (onTimerExpired decode later (onTimerExpired decode now s).1).2 = some d →
      intervalMs ≤ later - now) := by
  refine ⟨?_, ?_, ?_⟩
  · intro e hle hq hdec
    rw [onTimerExpired, if_neg (not_lt.mpr hle), hq]
    simp [hdec]
  · intro e1 e2 rest hle hq hdec
    rw [onTimerExpired, if_neg (not_lt.mpr hle), hq]
    simp [hdec]
  · intro e rest later d hle hq hdel
    have hlpt : (onTimerExpired decode now s).1.latestProcessTime = now := by
      rw [onTimerExpired, if_neg (not_lt.mpr hle), hq]
      cases rest with
      | nil => cases hdec : decode e.data <;> simp [hdec]
      | cons e2 rest2 => cases hdec : decode e2.data <;> simp [hdec]
    have := (onTimerExpired_deliver_eligible decode later
      (onTimerExpired decode now s).1 d hdel).1
    rwa [hlpt] at this

/-- Witness for C9 at a concrete input: a two-entry queue whose selected
(second) payload fails to decode is emptied with no delivery, and the pacing
timestamp advances. -/
theorem c9_decode_failure_witness :
    onTimerExpired (fun p => if p = "bad" then none else some p) 2000
        { eventQueue := [{ reconnecting := false, data := "a" },
                         { reconnecting := false, data := "bad" }],
          intervalTimer := true, latestProcessTime := 100 } =
      ({ eventQueue := [], intervalTimer := true, latestProcessTime := 2000 },
        none) := by
  exact (c9_decode_failure String (fun p => if p = "bad" then none else some p)
      2000
      { eventQueue := [{ reconnecting := false, data := "a" },
                       { reconnecting := false, data := "bad" }],
        intervalTimer := true, latestProcessTime := 100 }).2.1
    { reconnecting := false, data := "a" }
    { reconnecting := false, data := "bad" } [] (by decide) rfl (by decide)

/-- The dispatcher state of the C3 end-to-end scenario: three messages for the
same match enqueued 200 ms apart while the dispatcher was idle, so that at the
first eligible tick (1500 ms after the start) all three sit in the queue in
arrival order. -/
def c3State : DispatcherState :=
  { eventQueue := [{ reconnecting := false, data := "snapshot1" },
                   { reconnecting := false, data := "snapshot2" },
                   { reconnecting := false, data := "snapshot3" }],
    intervalTimer := true,
    latestProcessTime := 0 }

/-- C3. Evaluation of the timer callback at the scenario's first eligible tick:
with three messages queued, the code shifts the head and then delivers the
*second* message, leaving the third — the most recently enqueued one — in the
queue, so the delivered message is the second-oldest, not the last. (The
source's own deduplication comment says the latest message is taken.) -/
theorem c3_three_messages_eval :
    (onTimerExpired (fun p => some p) 1500 c3State).2 =
        some ("snapshot2", false) ∧
      (onTimerExpired (fun p => some p) 1500 c3State).1.eventQueue =
        [{ reconnecting := false, data := "snapshot3" }] := by
  constructor <;> rfl

/-- Counterexample to C8 as stated: `stop()` on a started dispatcher holding
one buffered message leaves that message in the queue — the pending queue is
not emptied. -/
theorem c8_counterexample :
    ¬ ((stopDispatcher
          { eventQueue := [{ reconnecting := false, data := "m" }],
            intervalTimer := true, latestProcessTime := 0 }).eventQueue = []) := by
  decide

/-- C8 (amended). After `stop()` the periodic tick is halted: the timer flag is
cleared and a tick on the stopped dispatcher delivers nothing and changes
nothing. Buffered messages, however, are retained, not dropped: the queue is
unchanged by `stop()`, only the separate `clear()` empties it, and a retained
message is delivered by an eligible tick after a later `start()`. -/
theorem c8_stop_amended (s : DispatcherState) :
    (stopDispatcher s).intervalTimer = false ∧
    (stopDispatcher s).eventQueue = s.eventQueue ∧
    (∀ (M : Type) (decode : String → Option M) (now : Int),
      tick decode now (stopDispatcher s) = (stopDispatcher s, none)) ∧
    (clearQueue s).eventQueue = [] ∧
    (∀ (M : Type) (decode : String → Option M) (e : EventQueueData)
        (m : M) (now later : Int),
      s.eventQueue = [e] → decode e.data = some m → intervalMs ≤ later - now →
      (tick decode later (startDispatcher now (stopDispatcher s))).2 =
        some (m, e.reconnecting)) := by
  refine ⟨rfl, rfl, ?_, rfl, ?_⟩
  · intro M decode now
    rw [tick, if_neg]
    simp [stopDispatcher]
  · intro M decode e m now later hq hdec hle
    have hstart : startDispatcher now (stopDispatcher s) =
        { s with intervalTimer := true, latestProcessTime := now } := by
      rw [startDispatcher, if_neg]
      · rfl
      · simp [stopDispatcher]
    rw [hstart, tick, if_pos rfl, onTimerExpired]
    rw [if_neg (not_lt.mpr (by simpa using hle))]
    simp only [hq]
    simp [hdec]

/-- Witness for C8 (amended) at a concrete input: a message buffered before
`stop()` is still delivered after `start()` and an eligible tick. -/
theorem c8_stop_amended_witness :
    (tick (fun p => some p) 4600
        (startDispatcher 3000 (stopDispatcher
          { eventQueue := [{ reconnecting := true, data := "kept" }],
            intervalTimer := true, latestProcessTime := 0 }))).2 =
      some ("kept", true) := by
  exact (c8_stop_amended
      { eventQueue := [{ reconnecting := true, data := "kept" }],
        intervalTimer := true, latestProcessTime := 0 }).2.2.2.2
    String (fun p => some p) { reconnecting := true, data := "kept" }
    "kept" 3000 4600 rfl rfl (by decide)

/-! ## WebSocketClient (the websocket module)

The connection handlers are modelled as pure transitions on the client's
fields, returning the new state together with the list of observable effects
(callback invocations, status-change notifications, the outbound
authentication send). A scheduled reconnect timer is `reconnectTimer = some d`
with `d` the delay in ms. -/

/-- Connection status reported through the status-change callback. -/
inductive ConnStatus where
  | disconnected
  | connecting
  | connected
deriving DecidableEq, Repr

/-- Observable effects of the client: callback invocations and the outbound
authentication payload. -/
inductive WSEffect where
  | onConnectCb (succeed reconnect : Bool)
  | onDisconnectCb (closedByUser : Bool)
  | statusChange (status : ConnStatus)
  | sentAuth
deriving DecidableEq, Repr

/-- Mutable fields of `WebSocketClient` relevant to connect/disconnect
handling. -/
structure WSClient where
  closedByUser : Bool
  connected : Bool
  reconnecting : Bool
  reconnectTimer : Option Int
deriving DecidableEq, Repr

/-- Fixed reconnect delay: 3000 ms. -/
def reconnectDelay : Int := 3000

/-- A freshly constructed client after `connect(token)`: `closedByUser` reset,
not yet authenticated, no reconnect timer. -/
def freshClient : WSClient :=
  { closedByUser := false, connected := false, reconnecting := false,
    reconnectTimer := none }

/-- `reconnect()`: clear any pending timer and schedule a connect attempt
after the fixed delay. -/
def scheduleReconnect (c : WSClient) : WSClient :=
  { c with reconnectTimer := some reconnectDelay }

/-- `handleDisconnect(closedByUser)`: fire the disconnect callback; then, if
the client had authenticated (`connected`) and the argument says the close was
not user-initiated, report status `Connecting` and schedule the reconnect;
otherwise clear `connected` and report status `Disconnected`. -/
def handleDisconnect (closedByUser : Bool) (c : WSClient) :
    WSClient × List WSEffect :=
  if c.connected && !closedByUser then
    (scheduleReconnect c,
      [WSEffect.onDisconnectCb closedByUser,
       WSEffect.statusChange ConnStatus.connecting])
  else
    ({ c with connected := false },
      [WSEffect.onDisconnectCb closedByUser,
       WSEffect.statusChange ConnStatus.disconnected])

/-- `handleConnect(succeed, reconnect)`: on failure, delegate to
`handleDisconnect(false)`; on success, send the authentication payload. -/
def handleConnect (succeed reconnect : Bool) (c : WSClient) :
    WSClient × List WSEffect :=
  let _ := reconnect
  if !succeed then handleDisconnect false c
  else (c, [WSEffect.sentAuth])

/-- The `error` handler of the socket during a connect attempt: it invokes
`handleConnect(false, reconnect, error.message)`. -/
def onTransportError (reconnect : Bool) (c : WSClient) :
    WSClient × List WSEffect :=
  handleConnect false reconnect c

/-- Counterexample to C4 as stated: a transport error during an initial connect
attempt that never reached the authenticated state — the user has not called
`close()` — schedules no reconnect (the claim says a reconnect is scheduled
after 3000 ms), emits no failed-connect event, and reports a plain disconnect
with status `Disconnected`. -/
theorem c4_counterexample :
    (onTransportError false freshClient).1.reconnectTimer = none ∧
    (onTransportError false freshClient).2 =
      [WSEffect.onDisconnectCb false,
       WSEffect.statusChange ConnStatus.disconnected] := by
  constructor <;> rfl

/-- C4 (amended). A transport error during a connect attempt is routed to the
disconnect handler as a non-user-initiated close — the client emits a
disconnect event with `closedByUser = false`, never a failed-connect event —
and a reconnect after the fixed 3000 ms delay is scheduled only when the client
had previously reached the authenticated state (`connected = true`); on an
initial connect that never authenticated, the client reports status
`Disconnected` and schedules no reconnect. -/
theorem c4_transport_error_amended (c : WSClient) (r : Bool) :
    onTransportError r c = handleDisconnect false c ∧
    (∀ s rc, WSEffect.onConnectCb s rc ∉ (onTransportError r c).2) ∧
    (c.connected = true →
      (onTransportError r c).1.reconnectTimer = some 3000 ∧
        (onTransportError r c).2 =
          [WSEffect.onDisconnectCb false,
           WSEffect.statusChange ConnStatus.connecting]) ∧
    (c.connected = false →
      (onTransportError r c).1 = { c with connected := false } ∧
        (onTransportError r c).2 =
          [WSEffect.onDisconnectCb false,
           WSEffect.statusChange ConnStatus.disconnected]) := by
  refine ⟨rfl, ?_, ?_, ?_⟩
  · intro s rc
    by_cases hc : c.connected <;>
      simp [onTransportError, handleConnect, handleDisconnect, hc]
  · intro hc
    constructor <;>
      simp [onTransportError, handleConnect, handleDisconnect, hc,
        scheduleReconnect, reconnectDelay]
  · intro hc
    constructor <;>
      simp [onTransportError, handleConnect, handleDisconnect, hc]

/-- Witness for C4 (amended) at a concrete input: for an authenticated client a
transport error schedules the 3000 ms reconnect; for the fresh client it does
not. -/
theorem c4_transport_error_amended_witness :
    (onTransportError true
        { closedByUser := false, connected := true, reconnecting := true,
          reconnectTimer := none }).1.reconnectTimer = some 3000 ∧
    (onTransportError false freshClient).1 =
      { freshClient with connected := false } := by
  constructor
  · exact ((c4_transport_error_amended
      { closedByUser := false, connected := true, reconnecting := true,
        reconnectTimer := none } true).2.2.1 rfl).1
  · exact ((c4_transport_error_amended freshClient false).2.2.2 rfl).1

/-! ## LiveTeamPanel (live_team_panel.ts) and the reconciliation pass
(livestanding.ts)

Only the record fields the embedded functions read are modelled. DOM effects
are reflected as explicit panel fields (inline opacity, the `eliminated` CSS
class); the GSAP rank-change animation is reflected as an emitted
`RankDir` event; fade-in/snap animations carry no data and are dropped. -/

/-- `post_data_pb`: only `death_type` is read by the embedded functions. -/
structure PostDataStats where
  death_type : String
deriving DecidableEq, Repr

/-- `telemetry_pb`: only `is_alive` and `is_groggy` are read. -/
structure TelemetryStats where
  is_alive : Bool
  is_groggy : Bool
deriving DecidableEq, Repr

/-- `Player2Data`: name, ids, team join keys and the two optional stat
records. -/
structure Player2Data where
  name : String
  id : String
  team_name : String
  team_id : Int
  post_data_pb : Option PostDataStats
  telemetry_pb : Option TelemetryStats
deriving DecidableEq, Repr

/-- `Team2Data`: the fields read by the embedded functions (name and numeric
id, rank, kills, score, placement rank, eliminated flag, display name). -/
structure Team2Data where
  name : String
  id : Int
  rank : Int
  total_kills : Int
  total_score : Int
  placement_rank : Int
  eliminated : Bool
  full_name : String
deriving DecidableEq, Repr

/-- Squad alive/dead/groggy counts. -/
structure SquadStatus where
  alive : Nat
  dead : Nat
  groggy : Nat
  total : Nat
deriving DecidableEq, Repr

/-- `currentConfig.panel_height` (live-standing-config.ts, DEFAULT_CONFIG). -/
def panel_height : Int := 32

/-- Player life status as counted by `calculateSquadStatus`. -/
inductive PStatus where
  | alive
  | groggy
  | dead
deriving DecidableEq, Repr

/-- The `telemetry_pb` fallback classification: alive/groggy from the two
flags, dead when not alive, and alive when no data exists at all. -/
def fallbackStatus (p : Player2Data) : PStatus :=
  match p.telemetry_pb with
  | some t =>
    if t.is_alive then (if t.is_groggy then PStatus.groggy else PStatus.alive)
    else PStatus.dead
  | none => PStatus.alive

/-- Classification used by `calculateSquadStatus`: `post_data_pb.death_type`
takes precedence when present and non-empty (a truthy string), with `"alive"`
and `"groggy"` distinguished and every other value counted dead; otherwise the
telemetry fallback applies. -/
def classifyPlayer (p : Player2Data) : PStatus :=
  match p.post_data_pb with
  | some pd =>
    if pd.death_type ≠ "" then
      if pd.death_type = "alive" then PStatus.alive
      else if pd.death_type = "groggy" then PStatus.groggy
      else PStatus.dead
    else fallbackStatus p
  | none => fallbackStatus p

/-- The per-player predicate of `updatePanel`'s elimination check
(`players.every(...)`): non-empty `death_type` decides via `!= "alive"`,
otherwise present telemetry decides via `!is_alive`, otherwise the player
counts as alive (`false`). -/
def playerNonAlive (p : Player2Data) : Bool :=
  match p.post_data_pb with
  | some pd =>
    if pd.death_type ≠ "" then decide (pd.death_type ≠ "alive")
    else
      match p.telemetry_pb with
      | some t => !t.is_alive
      | none => false
  | none =>
    match p.telemetry_pb with
    | some t => !t.is_alive
    | none => false

/-- `calculateSquadStatus`: match players by `team_id`, falling back to
`team_name`; with no matched players the default is four alive; otherwise count
statuses, reporting at least four total. -/
def calculateSquadStatus (team : Team2Data) (players : List Player2Data) :
    SquadStatus :=
  let byId := players.filter fun p => p.team_id == team.id
  let teamPlayers :=
    if byId.isEmpty then players.filter fun p => p.team_name == team.name
    else byId
  if teamPlayers.isEmpty then { alive := 4, dead := 0, groggy := 0, total := 4 }
  else
    { alive := teamPlayers.countP fun p => classifyPlayer p == PStatus.alive,
      dead := teamPlayers.countP fun p => classifyPlayer p == PStatus.dead,
      groggy := teamPlayers.countP fun p => classifyPlayer p == PStatus.groggy,
      total := max teamPlayers.length 4 }

/-- Direction of the rank-change (inkwell) animation. -/
inductive RankDir where
  | up
  | down
deriving DecidableEq, Repr

/-- The mutable state of one `LiveTeamPanel`, including its
`PanelAnimationController` fields (`ctrlPrevPosition`, `ctrlCurrentIndex`) and
the DOM-visible bits (inline opacity, `eliminated` CSS class). -/
structure PanelState where
  teamData : Team2Data
  squadStatus : SquadStatus
  ctrlPrevPosition : Int
  ctrlCurrentIndex : Int
  eliminated : Bool
  inMatch : Bool
  previousRank : Int
  opacity : Option String
  classEliminated : Bool
deriving DecidableEq, Repr

/-- The `LiveTeamPanel` constructor: initial squad status from the given
players, controller at `prevPosition = -1`, not eliminated, in match,
`previousRank` set to the team's rank, and the `eliminated` CSS class iff the
team data says eliminated. -/
def mkLiveTeamPanel (team : Team2Data) (players : List Player2Data)
    (currentIndex : Int) : PanelState :=
  { teamData := team,
    squadStatus := calculateSquadStatus team players,
    ctrlPrevPosition := -1,
    ctrlCurrentIndex := currentIndex,
    eliminated := false,
    inMatch := true,
    previousRank := team.rank,
    opacity := none,
    classEliminated := team.eliminated }

/-- `handlePositionAndAnimation`: outside the initial placement
(`controller.PrevPosition < 0`) and outside a refresh pass, compare the
recorded `previousRank` with the current rank (when the recorded rank is
positive): a numerically lower current rank plays the up animation, a higher
one the down animation, equal ranks none. Then record the current rank and run
`setIndexAndPosition` on the controller. -/
def handlePositionAndAnimation (p : PanelState) (currentIndex newPosition : Int)
    (refresh : Bool) : PanelState × Option RankDir :=
  let _ := newPosition
  let isInitialPosition : Bool := decide (p.ctrlPrevPosition < 0)
  let currentRank := p.teamData.rank
  let ev : Option RankDir :=
    if !isInitialPosition && !refresh then
      if decide (p.previousRank > 0) && decide (p.previousRank ≠ currentRank) then
        if decide (p.previousRank > currentRank) then some RankDir.up
        else some RankDir.down
      else none
    else none
  let p1 := { p with previousRank := currentRank }
  let p2 := { p1 with
    ctrlPrevPosition :=
      if p1.ctrlCurrentIndex ≥ 0 then p1.ctrlCurrentIndex * panel_height else -1,
    ctrlCurrentIndex := currentIndex }
  (p2, ev)

/-- `handleElimination`: the one-shot transition fires only when the team is in
match, not yet latched and now eliminated; an already-latched eliminated team
only has its faded styling re-applied; a non-eliminated roster resets the latch
and the styling. Returns the `justEliminated` flag. -/
def handleElimination (p : PanelState) (eliminated : Bool) :
    PanelState × Bool :=
  if p.inMatch && !p.eliminated && eliminated then
    ({ p with eliminated := true }, true)
  else if eliminated && p.eliminated then
    ({ p with opacity := some "0.3", classEliminated := true }, false)
  else if !eliminated then
    ({ p with
        opacity := some "1.0", classEliminated := false,
        eliminated := false }, false)
  else (p, false)

/-- `updatePanel`: fetch the team's current-match players, compute the
all-non-alive check (false for an empty roster), set `inMatch`, store the new
team data and squad status, set the panel opacity from `inMatch`, run the
position/rank-change step (the display updates read `matchTeam` but carry no
modelled data), then the elimination step. Returns the new panel state, the
`justEliminated` flag and the rank-change event. -/
def updatePanel (p : PanelState) (team matchTeam : Team2Data)
    (playersMap : List (String × List Player2Data)) (currentIndex : Int)
    (refresh : Bool) : PanelState × Bool × Option RankDir :=
  let _ := matchTeam
  let players := (playersMap.lookup team.name).getD []
  let eliminated : Bool :=
    if players.length > 0 then players.all playerNonAlive else false
  let inMatch : Bool := players.length != 0
  let p1 := { p with
    inMatch := inMatch,
    teamData := team,
    squadStatus := calculateSquadStatus team players,
    opacity := some (if inMatch then "1.0" else "0.3") }
  let newPosition := (currentIndex - 1) * panel_height
  let pr := handlePositionAndAnimation p1 currentIndex newPosition refresh
  let pe := handleElimination pr.1 eliminated
  (pe.1, pe.2, pr.2)

theorem handleElimination_snd (q : PanelState) (e : Bool) :
    (handleElimination q e).2 = (q.inMatch && !q.eliminated && e) := by
  cases h1 : q.inMatch <;> cases h2 : q.eliminated <;> cases e <;>
    simp [handleElimination, h1, h2]

theorem handleElimination_fst_eliminated (q : PanelState) (e : Bool) :
    (handleElimination q e).1.eliminated = (e && (q.eliminated || q.inMatch)) := by
  cases h1 : q.inMatch <;> cases h2 : q.eliminated <;> cases e <;>
    simp [handleElimination, h1, h2]

theorem handleElimination_false (q : PanelState) :
    (handleElimination q false).1 =
      { q with
          opacity := some "1.0",
          classEliminated := false,
          eliminated := false } := by
  cases h1 : q.inMatch <;> cases h2 : q.eliminated <;>
    simp [handleElimination, h1, h2]

theorem updatePanel_justElim (p : PanelState) (team matchTeam : Team2Data)
    (pm : List (String × List Player2Data)) (i : Int) (r : Bool) :
    (updatePanel p team matchTeam pm i r).2.1 =
      ((((pm.lookup team.name).getD []).length != 0) && !p.eliminated &&
        (if ((pm.lookup team.name).getD []).length > 0
         then ((pm.lookup team.name).getD []).all playerNonAlive
         else false)) := by
  simp only [updatePanel]
  rw [handleElimination_snd]
  rfl

theorem updatePanel_fst_eliminated (p : PanelState)
    (team matchTeam : Team2Data) (pm : List (String × List Player2Data))
    (i : Int) (r : Bool) :
    (updatePanel p team matchTeam pm i r).1.eliminated =
      ((if ((pm.lookup team.name).getD []).length > 0
        then ((pm.lookup team.name).getD []).all playerNonAlive
        else false) &&
       (p.eliminated || (((pm.lookup team.name).getD []).length != 0))) := by
  simp only [updatePanel]
  rw [handleElimination_fst_eliminated]
  rfl

/-- A sample team record used by concrete witnesses. -/
def teamA : Team2Data :=
  { name := "A",
    id := 1,
    rank := 3,
    total_kills := 5,
    total_score := 20,
    placement_rank := 7,
    eliminated := false,
    full_name := "Team A" }

/-- A sample player of `teamA` whose `death_type` marks them dead. -/
def playerDeadA : Player2Data :=
  { name := "a1",
    id := "a1",
    team_name := "A",
    team_id := 1,
    post_data_pb := some { death_type := "byplayer" },
    telemetry_pb := none }

/-- A sample player of `teamA` whose `death_type` marks them alive. -/
def playerAliveA : Player2Data :=
  { name := "a1",
    id := "a1",
    team_name := "A",
    team_id := 1,
    post_data_pb := some { death_type := "alive" },
    telemetry_pb := none }

/-- A sample panel for `teamA` that is past its initial placement and has a
recorded previous rank of 5. -/
def panelPastInitialA : PanelState :=
  { teamData := teamA,
    squadStatus := { alive := 4, dead := 0, groggy := 0, total := 4 },
    ctrlPrevPosition := 0,
    ctrlCurrentIndex := 1,
    eliminated := false,
    inMatch := true,
    previousRank := 5,
    opacity := none,
    classEliminated := false }

/-- A sample panel for `teamA` already latched eliminated, with the eliminated
styling applied. -/
def panelLatchedA : PanelState :=
  { teamData := teamA,
    squadStatus := { alive := 0, dead := 2, groggy := 0, total := 4 },
    ctrlPrevPosition := 0,
    ctrlCurrentIndex := 1,
    eliminated := true,
    inMatch := true,
    previousRank := 3,
    opacity := some "0.3",
    classEliminated := true }

/-- C6. The `justEliminated` output fires at most once per elimination: two
successive `updatePanel` calls with the same all-non-alive roster for a team
that is in match (non-empty roster) and not yet latched return `true` then
`false`; a call with an empty current-match roster, or on a panel already
latched eliminated, never returns `true`. -/
theorem c6_just_eliminated_once (p : PanelState) (team matchTeam : Team2Data)
    (pm : List (String × List Player2Data)) (i1 i2 : Int) (r1 r2 : Bool) :
    ((pm.lookup team.name).getD [] ≠ [] →
      ((pm.lookup team.name).getD []).all playerNonAlive = true →
      p.eliminated = false →
      (updatePanel p team matchTeam pm i1 r1).2.1 = true ∧
      (updatePanel (updatePanel p team matchTeam pm i1 r1).1
        team matchTeam pm i2 r2).2.1 = false) ∧
    ((pm.lookup team.name).getD [] = [] →
      (updatePanel p team matchTeam pm i1 r1).2.1 = false) ∧
    (p.eliminated = true →
      (updatePanel p team matchTeam pm i1 r1).2.1 = false) := by
  refine ⟨?_, ?_, ?_⟩
  · intro hne hall helim
    have hlen : 0 < ((pm.lookup team.name).getD []).length :=
      List.length_pos.mpr hne
    have hlen2 : (((pm.lookup team.name).getD []).length != 0) = true := by
      simpa using Nat.pos_iff_ne_zero.mp hlen
    constructor
    · rw [updatePanel_justElim, if_pos hlen, hall, hlen2, helim]
      rfl
    · rw [updatePanel_justElim]
      have helim2 : (updatePanel p team matchTeam pm i1 r1).1.eliminated = true := by
        rw [updatePanel_fst_eliminated, if_pos hlen, hall, hlen2]
        simp
      rw [helim2]
      simp
  · intro hemp
    rw [updatePanel_justElim, hemp]
    simp
  · intro helim
    rw [updatePanel_justElim, helim]
    simp

/-- Witness for C6 at a concrete input: a one-player team whose player is
non-alive triggers `justEliminated` on the first pass. -/
theorem c6_just_eliminated_once_witness :
    (updatePanel (mkLiveTeamPanel teamA [] 1) teamA teamA
      [("A", [playerDeadA])] 1 false).2.1 = true := by
  exact ((c6_just_eliminated_once (mkLiveTeamPanel teamA [] 1) teamA teamA
      [("A", [playerDeadA])] 1 1 false false).1
    (by decide) (by decide) rfl).1

/-- C7. For a panel past its initial placement (`controller.PrevPosition ≥ 0`),
outside a refresh pass and with a positive recorded previous rank, the
rank-change event is decided by comparing the recorded rank with the current
rank: a numerically lower current rank yields the up event, a higher one the
down event, equal ranks no event — and the event does not depend on the
display index or position passed in. -/
theorem c7_rank_change (p : PanelState) (i pos : Int)
    (hinit : 0 ≤ p.ctrlPrevPosition) (hprev : 0 < p.previousRank) :
    (p.teamData.rank < p.previousRank →
      (handlePositionAndAnimation p i pos false).2 = some RankDir.up) ∧
    (p.previousRank < p.teamData.rank →
      (handlePositionAndAnimation p i pos false).2 = some RankDir.down) ∧
    (p.previousRank = p.teamData.rank →
      (handlePositionAndAnimation p i pos false).2 = none) ∧
    (∀ i2 pos2, (handlePositionAndAnimation p i pos false).2 =
      (handlePositionAndAnimation p i2 pos2 false).2) := by
  have hni : ¬ (p.ctrlPrevPosition < 0) := not_lt.mpr hinit
  refine ⟨?_, ?_, ?_, ?_⟩
  · intro hlt
    simp [handlePositionAndAnimation, hni, hprev, hlt, ne_of_gt hlt]
  · intro hlt
    simp [handlePositionAndAnimation, hni, hprev, ne_of_lt hlt,
      not_lt.mpr (le_of_lt hlt)]
  · intro heq
    simp [handlePositionAndAnimation, hni, heq]
  · intro i2 pos2
    simp [handlePositionAndAnimation]

/-- Witness for C7 at a concrete input: previous rank 5, current rank 3, past
the initial placement and not refreshing, yields the rank-up event. -/
theorem c7_rank_change_witness :
    (handlePositionAndAnimation panelPastInitialA 2 32 false).2 =
      some RankDir.up := by
  exact (c7_rank_change panelPastInitialA 2 32 (by decide) (by decide)).1
    (by decide)

/-- C10. The eliminated latch is not permanent: on a panel already latched
eliminated, an `updatePanel` call whose roster has at least one alive player
(so the all-non-alive check fails) resets the internal flag, removes the
eliminated styling and restores opacity, without firing `justEliminated`; a
later call with a non-empty all-non-alive roster then fires
`justEliminated = true` a second time. -/
theorem c10_latch_reset (p : PanelState) (team matchTeam : Team2Data)
    (pm1 pm2 : List (String × List Player2Data)) (i1 i2 : Int) (r1 r2 : Bool)
    (hel : p.eliminated = true)
    (halive : ((pm1.lookup team.name).getD []).all playerNonAlive = false) :
    (updatePanel p team matchTeam pm1 i1 r1).1.eliminated = false ∧
    (updatePanel p team matchTeam pm1 i1 r1).1.classEliminated = false ∧
    (updatePanel p team matchTeam pm1 i1 r1).1.opacity = some "1.0" ∧
    (updatePanel p team matchTeam pm1 i1 r1).2.1 = false ∧
    ((pm2.lookup team.name).getD [] ≠ [] →
      ((pm2.lookup team.name).getD []).all playerNonAlive = true →
      (updatePanel (updatePanel p team matchTeam pm1 i1 r1).1
        team matchTeam pm2 i2 r2).2.1 = true) := by
  have helimB : (if ((pm1.lookup team.name).getD []).length > 0
      then ((pm1.lookup team.name).getD []).all playerNonAlive
      else false) = false := by
    by_cases h : ((pm1.lookup team.name).getD []).length > 0 <;>
      simp [h, halive]
  have hfst1 : (updatePanel p team matchTeam pm1 i1 r1).1.eliminated = false := by
    rw [updatePanel_fst_eliminated, helimB]
    simp
  refine ⟨hfst1, ?_, ?_, ?_, ?_⟩
  · simp only [updatePanel, helimB]
    rw [handleElimination_false]
  · simp only [updatePanel, helimB]
    rw [handleElimination_false]
  · rw [updatePanel_justElim, helimB]
    simp
  · intro hne hall
    have hlen : 0 < ((pm2.lookup team.name).getD []).length :=
      List.length_pos.mpr hne
    have hlen2 : (((pm2.lookup team.name).getD []).length != 0) = true := by
      simpa using Nat.pos_iff_ne_zero.mp hlen
    rw [updatePanel_justElim, if_pos hlen, hall, hlen2, hfst1]
    rfl

/-- Witness for C10 at a concrete input: a latched panel fed one alive player
resets, and a following all-dead pass fires `justEliminated` again. -/
theorem c10_latch_reset_witness :
    (updatePanel
      (updatePanel panelLatchedA teamA teamA [("A", [playerAliveA])] 1 false).1
      teamA teamA [("A", [playerDeadA])] 1 false).2.1 = true := by
  exact (c10_latch_reset panelLatchedA teamA teamA [("A", [playerAliveA])]
      [("A", [playerDeadA])] 1 1 false false rfl (by decide)).2.2.2.2
    (by decide) (by decide)
/-! ### The reconciliation pass over the displayed teams
(`updateTotalLeaderboardOnUIThread`, livestanding.ts) -/

/-- `totalTeamIndexMap.set(name, panel)`: replace (or add) the binding. -/
def setPanel (panels : List (String × PanelState)) (name : String)
    (p : PanelState) : List (String × PanelState) :=
  (name, p) :: panels.filter fun q => !(q.1 == name)

/-- The locals of one reconciliation pass: the panel map, the
`eliminatedTeams` accumulator, `currentIndex` and the `matchEnded` flag. -/
structure LeaderboardState where
  panels : List (String × PanelState)
  eliminatedTeams : List Team2Data
  currentIndex : Int
  matchEnded : Bool
deriving DecidableEq, Repr

/-- The panel used for a team in the pass: the existing one from the map, or a
freshly constructed `LiveTeamPanel` (with no players and the current display
index) when none exists yet. -/
def panelFor (st : LeaderboardState) (team : Team2Data) : PanelState :=
  match st.panels.lookup team.name with
  | some p => p
  | none => mkLiveTeamPanel team [] st.currentIndex

/-- The body of the `teamsToShow.forEach` loop: skip teams absent from the
current match (without advancing the index); otherwise update (or create and
update) the panel and, when it reports `justEliminated` and the match has not
already been marked ended, record the eliminated team — marking the match
ended when that team's `placement_rank` is 2 — and advance the index. -/
def processTeam (matchTeamMap : List (String × Team2Data))
    (playersMap : List (String × List Player2Data))
    (st : LeaderboardState) (team : Team2Data) : LeaderboardState :=
  match matchTeamMap.lookup team.name with
  | none => st
  | some matchTeam =>
    let r := updatePanel (panelFor st team) team matchTeam playersMap
      st.currentIndex false
    let panels2 := setPanel st.panels team.name r.1
    if r.2.1 && !st.matchEnded then
      { panels := panels2,
        eliminatedTeams := st.eliminatedTeams ++ [matchTeam],
        currentIndex := st.currentIndex + 1,
        matchEnded := if matchTeam.placement_rank == 2 then true
                      else st.matchEnded }
    else
      { panels := panels2,
        eliminatedTeams := st.eliminatedTeams,
        currentIndex := st.currentIndex + 1,
        matchEnded := st.matchEnded }

/-- The whole loop over the displayed teams. -/
def processTeams (matchTeamMap : List (String × Team2Data))
    (playersMap : List (String × List Player2Data))
    (st : LeaderboardState) (teams : List Team2Data) : LeaderboardState :=
  teams.foldl (processTeam matchTeamMap playersMap) st

/-- Loop state at entry of the pass: index starts at 1, no eliminated teams,
match not ended. -/
def initLeaderboardState (panels : List (String × PanelState)) :
    LeaderboardState :=
  { panels := panels, eliminatedTeams := [], currentIndex := 1,
    matchEnded := false }

/-- Insertion by descending `placement_rank` (the comparator
`team2.placement_rank - team1.placement_rank`). -/
def insertByPlacementDesc (t : Team2Data) : List Team2Data → List Team2Data
  | [] => [t]
  | u :: rest =>
    if u.placement_rank ≤ t.placement_rank then t :: u :: rest
    else u :: insertByPlacementDesc t rest

/-- Sorting the eliminated-team batch by `placement_rank` descending. -/
def sortByPlacementDesc : List Team2Data → List Team2Data
  | [] => []
  | t :: rest => insertByPlacementDesc t (sortByPlacementDesc rest)

/-- The outputs of one `updateTotalLeaderboardOnUIThread` pass: the updated
panel map, whether the match-end condition fired, the sorted elimination batch
that is handed to the overlay stage (none when the match ended or no team was
eliminated), and whether a snap-to-position instruction is issued. -/
structure LeaderboardResult where
  panels : List (String × PanelState)
  matchEnded : Bool
  overlayBatch : Option (List Team2Data)
  snapAll : Bool
deriving DecidableEq, Repr

/-- `updateTotalLeaderboardOnUIThread`: cap the roster at 16 displayed teams,
run the loop, and — unless the match-end condition fired, in which case the
pass returns early with no overlay batch and no snap — emit the eliminated
teams sorted by `placement_rank` descending (when any) and the snap flag. -/
def updateTotalLeaderboard (panels : List (String × PanelState))
    (totalTeams : List Team2Data) (matchTeamMap : List (String × Team2Data))
    (playersMap : List (String × List Player2Data)) (refresh : Bool) :
    LeaderboardResult :=
  let teamsToShow := totalTeams.take 16
  let st := processTeams matchTeamMap playersMap (initLeaderboardState panels)
    teamsToShow
  if st.matchEnded then
    { panels := st.panels, matchEnded := true, overlayBatch := none,
      snapAll := false }
  else
    { panels := st.panels,
      matchEnded := false,
      overlayBatch :=
        if st.eliminatedTeams.isEmpty then none
        else some (sortByPlacementDesc st.eliminatedTeams),
      snapAll := refresh || (st.panels.length == teamsToShow.length) }

theorem mem_insertByPlacementDesc (t b : Team2Data) (l : List Team2Data) :
    b ∈ insertByPlacementDesc t l ↔ b = t ∨ b ∈ l := by
  induction l with
  | nil => simp [insertByPlacementDesc]
  | cons u rest ih =>
    rw [insertByPlacementDesc]
    by_cases h : u.placement_rank ≤ t.placement_rank
    · rw [if_pos h]
      simp [List.mem_cons]
    · rw [if_neg h]
      simp only [List.mem_cons, ih]
      tauto

theorem pairwise_insertByPlacementDesc (t : Team2Data) (l : List Team2Data)
    (h : l.Pairwise fun a b => b.placement_rank ≤ a.placement_rank) :
    (insertByPlacementDesc t l).Pairwise
      fun a b => b.placement_rank ≤ a.placement_rank := by
  induction l with
  | nil => simp [insertByPlacementDesc]
  | cons u rest ih =>
    rw [insertByPlacementDesc]
    rcases List.pairwise_cons.mp h with ⟨hu, hrest⟩
    by_cases hle : u.placement_rank ≤ t.placement_rank
    · rw [if_pos hle]
      refine List.pairwise_cons.mpr ⟨?_, h⟩
      intro b hb
      rcases List.mem_cons.mp hb with rfl | hb2
      · exact hle
      · exact le_trans (hu b hb2) hle
    · rw [if_neg hle]
      refine List.pairwise_cons.mpr ⟨?_, ih hrest⟩
      intro b hb
      rcases (mem_insertByPlacementDesc t b rest).mp hb with rfl | hb2
      · exact le_of_lt (lt_of_not_le hle)
      · exact hu b hb2

theorem pairwise_sortByPlacementDesc (l : List Team2Data) :
    (sortByPlacementDesc l).Pairwise
      fun a b => b.placement_rank ≤ a.placement_rank := by
  induction l with
  | nil => simp [sortByPlacementDesc]
  | cons t rest ih => exact pairwise_insertByPlacementDesc t _ ih

theorem processTeam_matchEnded_mono (matchTeamMap : List (String × Team2Data))
    (playersMap : List (String × List Player2Data)) (st : LeaderboardState)
    (team : Team2Data) (h : st.matchEnded = true) :
    (processTeam matchTeamMap playersMap st team).matchEnded = true := by
  unfold processTeam
  cases hmt : matchTeamMap.lookup team.name with
  | none => exact h
  | some matchTeam => simp [h]

theorem processTeams_matchEnded_mono
    (matchTeamMap : List (String × Team2Data))
    (playersMap : List (String × List Player2Data))
    (teams : List Team2Data) :
    ∀ st : LeaderboardState, st.matchEnded = true →
      (processTeams matchTeamMap playersMap st teams).matchEnded = true := by
  induction teams with
  | nil => intro st h; exact h
  | cons t rest ih =>
    intro st h
    exact ih (processTeam matchTeamMap playersMap st t)
      (processTeam_matchEnded_mono matchTeamMap playersMap st t h)

theorem processTeams_append (matchTeamMap : List (String × Team2Data))
    (playersMap : List (String × List Player2Data))
    (st : LeaderboardState) (l1 l2 : List Team2Data) :
    processTeams matchTeamMap playersMap st (l1 ++ l2) =
      processTeams matchTeamMap playersMap
        (processTeams matchTeamMap playersMap st l1) l2 := by
  simp [processTeams, List.foldl_append]

/-- C5. In one reconciliation pass, any elimination batch handed to the
overlay stage is sorted by `placement_rank` descending (worst finisher first);
when the match-end condition fired no batch is emitted at all; and if some
displayed team of the pass is matched in the current match, reports
`justEliminated` from its panel update, and has `placement_rank` 2, then the
pass marks the match ended — even when other teams were eliminated in the
same pass. -/
theorem c5_elimination_batch (panels : List (String × PanelState))
    (totalTeams : List Team2Data) (matchTeamMap : List (String × Team2Data))
    (playersMap : List (String × List Player2Data)) (refresh : Bool) :
    (∀ l, (updateTotalLeaderboard panels totalTeams matchTeamMap playersMap
        refresh).overlayBatch = some l →
      l.Pairwise fun a b => b.placement_rank ≤ a.placement_rank) ∧
    ((updateTotalLeaderboard panels totalTeams matchTeamMap playersMap
        refresh).matchEnded = true →
      (updateTotalLeaderboard panels totalTeams matchTeamMap playersMap
        refresh).overlayBatch = none) ∧
    (∀ pre t post matchTeam,
      totalTeams.take 16 = pre ++ t :: post →
      matchTeamMap.lookup t.name = some matchTeam →
      matchTeam.placement_rank = 2 →
      (updatePanel
        (panelFor
          (processTeams matchTeamMap playersMap (initLeaderboardState panels)
            pre) t)
        t matchTeam playersMap
        (processTeams matchTeamMap playersMap (initLeaderboardState panels)
          pre).currentIndex false).2.1 = true →
      (updateTotalLeaderboard panels totalTeams matchTeamMap playersMap
        refresh).matchEnded = true) := by
  refine ⟨?_, ?_, ?_⟩
  · intro l hl
    unfold updateTotalLeaderboard at hl
    by_cases hme : (processTeams matchTeamMap playersMap
        (initLeaderboardState panels) (totalTeams.take 16)).matchEnded
    · rw [if_pos hme] at hl
      exact absurd hl (by simp)
    · rw [if_neg hme] at hl
      by_cases hemp : (processTeams matchTeamMap playersMap
          (initLeaderboardState panels) (totalTeams.take 16)).eliminatedTeams.isEmpty
      · rw [if_pos hemp] at hl

        exact absurd hl (by simp)
      · rw [if_neg hemp] at hl
        have hl2 : l = sortByPlacementDesc
            (processTeams matchTeamMap playersMap
              (initLeaderboardState panels)
              (totalTeams.take 16)).eliminatedTeams := by
          exact Option.some_injective _ hl.symm
        rw [hl2]
        exact pairwise_sortByPlacementDesc _
  · intro hme2
    unfold updateTotalLeaderboard at hme2 ⊢
    by_cases hme : (processTeams matchTeamMap playersMap
        (initLeaderboardState panels) (totalTeams.take 16)).matchEnded
    · rw [if_pos hme]
    · rw [if_neg hme] at hme2
      exact absurd hme2 (by simp)
  · intro pre t post matchTeam hsplit hmt hpr hje
    have hstep : (processTeam matchTeamMap playersMap
        (processTeams matchTeamMap playersMap (initLeaderboardState panels)
          pre) t).matchEnded = true := by
      by_cases hme : (processTeams matchTeamMap playersMap
          (initLeaderboardState panels) pre).matchEnded
      · exact processTeam_matchEnded_mono _ _ _ _ hme
      · unfold processTeam
        rw [hmt]
        simp only [hje, eq_self_iff_true, Bool.not_eq_true] at hme
        simp [hme, hje, hpr]
    have hall : (processTeams matchTeamMap playersMap
        (initLeaderboardState panels) (totalTeams.take 16)).matchEnded = true := by
      rw [hsplit]
      have hcons : processTeams matchTeamMap playersMap
          (processTeams matchTeamMap playersMap (initLeaderboardState panels)
            pre) (t :: post) =
          processTeams matchTeamMap playersMap
            (processTeam matchTeamMap playersMap
              (processTeams matchTeamMap playersMap
                (initLeaderboardState panels) pre) t) post := rfl
      rw [processTeams_append, hcons]
      exact processTeams_matchEnded_mono _ _ post _ hstep
    unfold updateTotalLeaderboard
    rw [if_pos hall]

/-- The runner-up team of the C5 witness scenario: `placement_rank` 2. -/
def teamB2 : Team2Data :=
  { name := "B",
    id := 2,
    rank := 2,
    total_kills := 3,
    total_score := 15,
    placement_rank := 2,
    eliminated := false,
    full_name := "Team B" }

/-- A dead player of `teamB2`. -/
def playerDeadB : Player2Data :=
  { name := "b1",
    id := "b1",
    team_name := "B",
    team_id := 2,
    post_data_pb := some { death_type := "byplayer" },
    telemetry_pb := none }

/-- Witness for C5 at a concrete input: the runner-up (placement rank 2) is
just eliminated, so the pass marks the match ended. -/
theorem c5_elimination_batch_witness :
    (updateTotalLeaderboard [] [teamB2] [("B", teamB2)]
      [("B", [playerDeadB])] false).matchEnded = true := by
  exact (c5_elimination_batch [] [teamB2] [("B", teamB2)]
      [("B", [playerDeadB])] false).2.2 [] teamB2 [] teamB2
    (by decide) (by decide) (by decide) (by decide)

end Mpubg
